import Mathlib

/-!
Verification development for the `upper` package-upgrade tool
(src/upper/__init__.py and src/upper/logger.py), shallowly embedded in Lean.

External effects (subprocess execution, the reboot-marker file) are modelled
by an explicit environment; every run produces a trace of observable events
(log lines, subprocess invocations, stderr prints, and the driver's calls
into each manager's upgrade / post_upgrade hook).
-/

namespace Upper

/-! ## Logger (src/upper/logger.py) -/

/-- Log levels, mirroring `logger.Level`.  `enum.auto` numbers them 1..4. -/
inductive Level where
  | DEBUG
  | INFO
  | WARNING
  | ERROR
deriving DecidableEq, Repr

/-- The numeric value assigned by `enum.auto()` in class `Level`. -/
def Level.value : Level → Nat
  | .DEBUG => 1
  | .INFO => 2
  | .WARNING => 3
  | .ERROR => 4

/-- A message argument: either a literal string or a zero-argument lazy
producer (`type Message = str | MessageBuilder` in logger.py). -/
inductive Message where
  | lit (s : String)
  | builder (f : Unit → String)

/-- Forcing a message to text (the `if callable(message): message = message()`
step of `logger._print`). -/
def evalMessage : Message → String
  | .lit s => s
  | .builder f => f ()

/-- Per-level formatting record.  The Lean fields name/pre/mid/post model the
Python `_LevelInfo` NamedTuple fields (its second, third and fourth fields are
renamed here purely for Lean's lexical rules). -/
structure LevelInfo where
  name : String
  pre : String
  mid : String
  post : String
deriving DecidableEq, Repr

/-- The `_LEVEL_INFOS` table of logger.py (octal `\033` escapes written as
`\x1b`). -/
def levelInfos : Level → LevelInfo
  | .DEBUG => ⟨"debug: ", "\x1b[2m", "", "\x1b[0m"⟩
  | .INFO => ⟨"", "\x1b[1;34m", "", "\x1b[0m"⟩
  | .WARNING => ⟨"error: ", "\x1b[1;33m", "\x1b[0m", ""⟩
  | .ERROR => ⟨"error: ", "\x1b[1;31m", "\x1b[0m", ""⟩

/-- The full line written to stderr by `logger._print` for one message, in the
exact write order: prefix part, `"(upper) "`, level name, middle part, the
message, trailing part, newline. -/
def render (lvl : Level) (msg : String) : String :=
  (levelInfos lvl).pre ++ "(upper) " ++ (levelInfos lvl).name ++
    (levelInfos lvl).mid ++ msg ++ (levelInfos lvl).post ++ "\n"

/-- `logger._print`, as a function of the configured level `cfg` (the module
global `_level`): returns the emitted stderr line, or `none` when the early
`if level.value < _level.value: return` gate fires (before the message builder
is ever called). -/
def _print (cfg lvl : Level) (m : Message) : Option String :=
  if lvl.value < cfg.value then none
  else some (render lvl (evalMessage m))

/-! ## shlex quoting (Python stdlib, as used by `shlex.join` in `_exec`) -/

/-- The single-quote character. -/
def squote : Char := Char.ofNat 39

/-- The single-quote character as a string. -/
def squoteStr : String := String.singleton squote

/-- Characters `shlex.quote` considers safe: ASCII letters, digits,
underscore, and the punctuation at-sign, percent, plus, equals, colon,
comma, dot, slash, dash (the complement of `_find_unsafe` in shlex). -/
def shlexSafeChar (c : Char) : Bool :=
  c.isAlpha || c.isDigit ||
    ([Char.ofNat 95, Char.ofNat 64, Char.ofNat 37, Char.ofNat 43,
      Char.ofNat 61, Char.ofNat 58, Char.ofNat 44, Char.ofNat 46,
      Char.ofNat 47, Char.ofNat 45].contains c)

/-- Python `str.replace` for a one-character pattern (the only use shlex
makes of it: replacing each single quote). -/
def replaceChar (s : String) (c : Char) (repl : String) : String :=
  String.join (s.toList.map (fun x => if x = c then repl else String.singleton x))

/-- `shlex.quote`: empty strings become two single quotes; strings of safe
characters pass through; anything else is wrapped in single quotes with each
embedded single quote rewritten to quote-doublequote-quote-doublequote-quote. -/
def shlexQuote (s : String) : String :=
  if s = "" then squoteStr ++ squoteStr
  else if s.toList.all shlexSafeChar then s
  else
    squoteStr ++
      (replaceChar s squote
        (squoteStr ++ "\"" ++ squoteStr ++ "\"" ++ squoteStr)) ++
      squoteStr

/-- `shlex.join`: quote each word and join with single spaces. -/
def shlexJoin (cmd : List String) : String :=
  String.intercalate " " (cmd.map shlexQuote)

/-! ## JSON values and `json.loads` (Python stdlib, as used by `_parse_json`)

The tool consumes `npm outdated --json` output: objects whose values are
objects of strings.  The value type and parser below model `json.loads` on
the object/array/string/integer/bool/null fragment (string escapes and float
literals are outside the modelled fragment; inputs using them parse to
`none`, i.e. are treated as undecodable). -/

inductive Json where
  | null
  | bool (b : Bool)
  | num (n : Int)
  | str (s : String)
  | arr (elems : List Json)
  | obj (entries : List (String × Json))

/-- Python dict indexing `d[k]` on an insertion-ordered key/value list
(`None` stands for the `KeyError` case). -/
def dictGet (d : List (String × Json)) (k : String) : Option Json :=
  match d with
  | [] => none
  | (k0, v) :: rest => if k0 = k then some v else dictGet rest k

/-- Python dict insertion `d[k] = v`: an existing key keeps its position and
gets the new value, a fresh key is appended. -/
def dictInsert (d : List (String × Json)) (k : String) (v : Json) :
    List (String × Json) :=
  match d with
  | [] => [(k, v)]
  | (k0, v0) :: rest =>
      if k0 = k then (k0, v) :: rest else (k0, v0) :: dictInsert rest k v

/-- The double-quote character. -/
def dquoteChar : Char := Char.ofNat 34

/-- The opening-brace character. -/
def lbraceChar : Char := Char.ofNat 123

/-- The closing-brace character. -/
def rbraceChar : Char := Char.ofNat 125

/-- Skip JSON insignificant whitespace. -/
def skipWs : List Char → List Char
  | c :: cs =>
      if c = ' ' || c = '\t' || c = '\n' || c = '\r' then skipWs cs
      else c :: cs
  | [] => []

/-- Parse the body of a JSON string after its opening quote (escape-free
fragment: a backslash makes the input undecodable in this model). -/
def parseStringBody : List Char → Option (String × List Char)
  | [] => none
  | c :: rest =>
      if c = dquoteChar then some ("", rest)
      else if c = '\\' then none
      else
        match parseStringBody rest with
        | some (s, r) => some (String.singleton c ++ s, r)
        | none => none

/-- Accumulate a run of decimal digits left to right. -/
def parseNatAux (acc : Nat) : List Char → Nat × List Char
  | c :: rest =>
      if c.isDigit then parseNatAux (acc * 10 + (c.toNat - 48)) rest
      else (acc, c :: rest)
  | [] => (acc, [])

/-- Parse a nonempty run of decimal digits into a natural number. -/
def parseNat : List Char → Option (Nat × List Char)
  | c :: rest =>
      if c.isDigit then some (parseNatAux (c.toNat - 48) rest)
      else none
  | [] => none

mutual

/-- Parse one JSON value (fuel-indexed recursive-descent, modelling
`json.loads` on the escape-free, integer-numeric fragment). -/
def parseValue : Nat → List Char → Option (Json × List Char)
  | 0, _ => none
  | fuel + 1, cs =>
      match skipWs cs with
      | [] => none
      | c :: rest =>
          if c = dquoteChar then
            match parseStringBody rest with
            | some (s, r) => some (Json.str s, r)
            | none => none
          else if c = lbraceChar then
            match skipWs rest with
            | c2 :: rest2 =>
                if c2 = rbraceChar then some (Json.obj [], rest2)
                else parseMembers fuel [] (c2 :: rest2)
            | [] => none
          else if c = '[' then
            match skipWs rest with
            | c2 :: rest2 =>
                if c2 = ']' then some (Json.arr [], rest2)
                else parseElements fuel [] (c2 :: rest2)
            | [] => none
          else if c = 't' then
            match rest with
            | 'r' :: 'u' :: 'e' :: r => some (Json.bool true, r)
            | _ => none
          else if c = 'f' then
            match rest with
            | 'a' :: 'l' :: 's' :: 'e' :: r => some (Json.bool false, r)
            | _ => none
          else if c = 'n' then
            match rest with
            | 'u' :: 'l' :: 'l' :: r => some (Json.null, r)
            | _ => none
          else if c = '-' then
            match parseNat rest with
            | some (n, r) => some (Json.num (-(n : Int)), r)
            | none => none
          else
            match parseNat (c :: rest) with
            | some (n, r) => some (Json.num (n : Int), r)
            | none => none

/-- Parse the members of a JSON object after its opening brace, accumulating
into `acc` with Python-dict insertion semantics. -/
def parseMembers (fuel : Nat) (acc : List (String × Json)) :
    List Char → Option (Json × List Char) :=
  fun cs =>
    match fuel with
    | 0 => none
    | fuel + 1 =>
        match skipWs cs with
        | c :: rest =>
            if c = dquoteChar then
              match parseStringBody rest with
              | some (k, r1) =>
                  match skipWs r1 with
                  | ':' :: r2 =>
                      match parseValue fuel r2 with
                      | some (v, r3) =>
                          match skipWs r3 with
                          | ',' :: r4 => parseMembers fuel (dictInsert acc k v) r4
                          | c4 :: r4 =>
                              if c4 = rbraceChar then
                                some (Json.obj (dictInsert acc k v), r4)
                              else none
                          | [] => none
                      | none => none
                  | _ => none
              | none => none
            else none
        | [] => none

/-- Parse the elements of a JSON array after its opening bracket. -/
def parseElements (fuel : Nat) (acc : List Json) :
    List Char → Option (Json × List Char) :=
  fun cs =>
    match fuel with
    | 0 => none
    | fuel + 1 =>
        match parseValue fuel cs with
        | some (v, r) =>
            match skipWs r with
            | ',' :: r2 => parseElements fuel (acc ++ [v]) r2
            | ']' :: r2 => some (Json.arr (acc ++ [v]), r2)
            | _ => none
        | none => none

end

/-- Parse `json.loads` input: one value, then only trailing whitespace. -/
def parseJson (s : String) : Option Json :=
  match parseValue (2 * s.length + 4) s.toList with
  | some (v, r) =>
      match skipWs r with
      | [] => some v
      | _ => none
  | none => none

mutual

/-- Python `str()` / `repr()` rendering of a JSON value as interpolated by
the tool's f-strings.  Scalars follow Python exactly; container repr is
simplified (no escaping inside quoted strings), which is outside the shapes
the tool interpolates. -/
def pyRepr : Json → String
  | .null => "None"
  | .bool true => "True"
  | .bool false => "False"
  | .num n => toString n
  | .str s => squoteStr ++ s ++ squoteStr
  | .arr xs => "[" ++ String.intercalate ", " (pyReprList xs) ++ "]"
  | .obj kvs => "\x7b" ++ String.intercalate ", " (pyReprEntries kvs) ++ "\x7d"

/-- Elementwise `pyRepr` of array elements. -/
def pyReprList : List Json → List String
  | [] => []
  | x :: xs => pyRepr x :: pyReprList xs

/-- Elementwise `pyRepr` of object entries. -/
def pyReprEntries : List (String × Json) → List String
  | [] => []
  | (k, v) :: xs =>
      (squoteStr ++ k ++ squoteStr ++ ": " ++ pyRepr v) :: pyReprEntries xs

end

/-- Python `str()` of a JSON value, as used by f-string interpolation:
strings interpolate as themselves, other values as their repr/str text. -/
def pyStr : Json → String
  | .str s => s
  | .null => "None"
  | .bool true => "True"
  | .bool false => "False"
  | .num n => toString n
  | .arr xs => pyRepr (.arr xs)
  | .obj kvs => pyRepr (.obj kvs)

/-! ## The tool itself (src/upper/__init__.py) -/

/-- Exceptions the embedded code can raise.  `calledProcessError` is
`subprocess.CalledProcessError` (from `check_returncode`), `typeError` the
`raise TypeError` in `NPM.upgrade`, `keyError` a failed dict index, and
`jsonDecodeError` a `json.loads` failure. -/
inductive PyError where
  | calledProcessError (returncode : Int)
  | typeError
  | keyError (key : String)
  | jsonDecodeError
deriving DecidableEq, Repr

/-- `_parse_json`: `json.loads`, surfacing undecodable input as the raised
`json.JSONDecodeError`. -/
def _parse_json (s : String) : Except PyError Json :=
  match parseJson s with
  | some j => Except.ok j
  | none => Except.error PyError.jsonDecodeError

/-- The external world one run interacts with: the outcome (return code,
captured stdout text) of running a command line with optional extra
environment entries, and whether the reboot-marker file exists. -/
structure Env where
  run : List String → Option (List (String × String)) → Int × String
  rebootRequiredFile : Bool

/-- Observable events of one run: the driver's calls into a manager's
`upgrade` / `post_upgrade`, emitted logger lines (level and message text),
subprocess invocations (full command line and return code), and plain
`print(..., file=sys.stderr)` output. -/
inductive Event where
  | callUpgrade (name : String)
  | callPostUpgrade (name : String)
  | log (lvl : Level) (msg : String)
  | execp (cmd : List String) (returncode : Int)
  | print (msg : String)
deriving DecidableEq, Repr

/-- Executable paths fixed at module top level. -/
def USR_BIN_DIR : String := "/usr/bin"

def SUDO_EXE : String := USR_BIN_DIR ++ "/sudo"

def APT_GET_EXE : String := USR_BIN_DIR ++ "/apt-get"

def SNAP_EXE : String := USR_BIN_DIR ++ "/snap"

def NPM_EXE : String := USR_BIN_DIR ++ "/npm"

def PIPX_EXE : String := USR_BIN_DIR ++ "/pipx"

def APT_REBOOT_REQUIRED_FILE : String := "/run/reboot-required"

/-- The logger's configured level for one run: `main` raises it to DEBUG
when `--verbose` was given, otherwise it stays at the default INFO. -/
def cfgOf (verbose : Bool) : Level :=
  if verbose then Level.DEBUG else Level.INFO

/-- A logger call as trace events: one emitted line (with its level and
forced message text) when `_print` passes the level gate, nothing when the
gate fires. -/
def logEmit (cfg lvl : Level) (m : Message) : List Event :=
  match _print cfg lvl m with
  | some _ => [Event.log lvl (evalMessage m)]
  | none => []

/-- Line `cmd = [SUDO_EXE, "--", *cmd]` of `_exec`: the sudo prefix applied
when elevation is requested. -/
def sudoWrap (use_sudo : Bool) (cmd : List String) : List String :=
  if use_sudo then SUDO_EXE :: "--" :: cmd else cmd

/-- `_exec`: run a command, logging it at debug level first (lazily); return
codes besides 0 and the caller's `valid_return_codes` raise
`CalledProcessError` via `check_returncode` (which never raises on code 0);
the captured stdout is returned when requested, `""` otherwise. -/
def _exec (E : Env) (cfg : Level) (cmd : List String) (use_sudo : Bool)
    (capture_stdout : Bool) (valid_return_codes : Option (List Int))
    (env : Option (List (String × String))) : Except PyError String × List Event :=
  let cmd2 := sudoWrap use_sudo cmd
  let dbg := logEmit cfg Level.DEBUG
    (Message.builder (fun _ => "executing: " ++ shlexJoin cmd2))
  let rc := (E.run cmd2 env).1
  let events := dbg ++ [Event.execp cmd2 rc]
  let invalid : Bool :=
    match valid_return_codes with
    | none => true
    | some vs => !(vs.contains rc)
  let result : Except PyError String :=
    if invalid && rc != 0 then Except.error (PyError.calledProcessError rc)
    else Except.ok (if capture_stdout then (E.run cmd2 env).2 else "")
  (result, events)

/-- `APT.upgrade`. -/
def aptUpgrade (E : Env) (cfg : Level) : Except PyError Unit × List Event :=
  let r := _exec E cfg
    [APT_GET_EXE, "upgrade", "--update", "--assume-yes", "--verbose-versions"]
    true false none none
  (r.1.map (fun _ => ()), r.2)

/-- `APT.post_upgrade`: warn when the reboot-marker file exists. -/
def aptPostUpgrade (E : Env) (cfg : Level) : List Event :=
  if E.rebootRequiredFile then
    logEmit cfg Level.WARNING (Message.lit "A reboot is required.")
  else []

/-- `Snap.upgrade`. -/
def snapUpgrade (E : Env) (cfg : Level) : Except PyError Unit × List Event :=
  let r := _exec E cfg [SNAP_EXE, "refresh"] true false none none
  (r.1.map (fun _ => ()), r.2)

/-- The command line of the npm outdated query. -/
def npmOutdatedCmd : List String := [NPM_EXE, "outdated", "--global", "--json"]

/-- The command line of the npm follow-up install for one package at one
version. -/
def npmInstallCmd (package : String) (latest : Json) : List String :=
  [NPM_EXE, "install", "--global", "--no-audit", "--no-fund", "--silent",
    package ++ "@" ++ pyStr latest]

/-- The `for package, versions in packages.items()` loop of `NPM.upgrade`:
each entry must be a dict (else `TypeError`), its `current` / `latest`
entries are read (a missing key raises `KeyError`), the planned transition
is printed, and one elevated install runs; a raised error aborts the loop. -/
def npmInstallLoop (E : Env) (cfg : Level) :
    List (String × Json) → Except PyError Unit × List Event
  | [] => (Except.ok (), [])
  | (package, versions) :: rest =>
      match versions with
      | Json.obj vs =>
          match dictGet vs "current" with
          | none => (Except.error (PyError.keyError "current"), [])
          | some current =>
              match dictGet vs "latest" with
              | none => (Except.error (PyError.keyError "latest"), [])
              | some latest =>
                  let pr := Event.print
                    ("Upgrading " ++ package ++ ": " ++ pyStr current ++
                      " -> " ++ pyStr latest)
                  let r := _exec E cfg (npmInstallCmd package latest)
                    true false none none
                  match r.1 with
                  | Except.error e => (Except.error e, pr :: r.2)
                  | Except.ok _ =>
                      let k := npmInstallLoop E cfg rest
                      (k.1, pr :: r.2 ++ k.2)
      | _ => (Except.error PyError.typeError, [])

/-- `NPM.upgrade`: query outdated globals (exit code 1 accepted), parse the
captured stdout as JSON, require a dict (else `TypeError`), report and stop
when it is empty, otherwise install each listed package at its latest
version. -/
def npmUpgrade (E : Env) (cfg : Level) : Except PyError Unit × List Event :=
  let r := _exec E cfg npmOutdatedCmd false true (some [1]) none
  match r.1 with
  | Except.error e => (Except.error e, r.2)
  | Except.ok packagesStr =>
      match _parse_json packagesStr with
      | Except.error e => (Except.error e, r.2)
      | Except.ok packages =>
          match packages with
          | Json.obj entries =>
              if entries.isEmpty then
                (Except.ok (), r.2 ++ [Event.print "All packages are up-to-date."])
              else
                let k := npmInstallLoop E cfg entries
                (k.1, r.2 ++ k.2)
          | _ => (Except.error PyError.typeError, r.2)

/-- `Pipx.upgrade`. -/
def pipxUpgrade (E : Env) (cfg : Level) : Except PyError Unit × List Event :=
  let r := _exec E cfg [PIPX_EXE, "upgrade-all"] false false none
    (some [("USE_EMOJI", "0")])
  (r.1.map (fun _ => ()), r.2)

/-- The four concrete `PackageManager` subclasses. -/
inductive PM where
  | APT
  | Snap
  | NPM
  | Pipx
deriving DecidableEq, Repr

/-- The `name` property of each manager. -/
def PM.name : PM → String
  | .APT => "APT"
  | .Snap => "Snap"
  | .NPM => "npm"
  | .Pipx => "pipx"

/-- The `upgrade` method of each manager. -/
def PM.upgrade (pm : PM) (E : Env) (cfg : Level) :
    Except PyError Unit × List Event :=
  match pm with
  | .APT => aptUpgrade E cfg
  | .Snap => snapUpgrade E cfg
  | .NPM => npmUpgrade E cfg
  | .Pipx => pipxUpgrade E cfg

/-- The `post_upgrade` method of each manager (the base-class default is a
no-op; only `APT` overrides it). -/
def PM.post_upgrade (pm : PM) (E : Env) (cfg : Level) : List Event :=
  match pm with
  | .APT => aptPostUpgrade E cfg
  | _ => []

/-- The module-level `PACKAGE_MANAGERS` list, in source order. -/
def PACKAGE_MANAGERS : List PM := [PM.APT, PM.Snap, PM.NPM, PM.Pipx]

/-- The first loop of `main`: for each manager in order, log its name at
info level, mark the `upgrade` call, and run it; a raised error propagates
immediately, skipping all remaining managers. -/
def upgradePhase (E : Env) (cfg : Level) :
    List PM → Except PyError Unit × List Event
  | [] => (Except.ok (), [])
  | pm :: rest =>
      let infoEvs := logEmit cfg Level.INFO (Message.lit pm.name)
      let r := pm.upgrade E cfg
      match r.1 with
      | Except.error e =>
          (Except.error e, infoEvs ++ Event.callUpgrade pm.name :: r.2)
      | Except.ok _ =>
          let k := upgradePhase E cfg rest
          (k.1, infoEvs ++ Event.callUpgrade pm.name :: r.2 ++ k.2)

/-- The second loop of `main`: `post_upgrade` on each manager in order
(these calls raise nothing). -/
def postUpgradePhase (E : Env) (cfg : Level) : List PM → List Event
  | [] => []
  | pm :: rest =>
      Event.callPostUpgrade pm.name :: pm.post_upgrade E cfg ++
        postUpgradePhase E cfg rest

/-- `main` after argument parsing: the upgrade loop over
`PACKAGE_MANAGERS`, then (only if no upgrade raised) the post-upgrade loop;
`main` itself returns `None` on success, and a raised error propagates out
of it uncaught. -/
def mainRun (E : Env) (verbose : Bool) : Except PyError Unit × List Event :=
  let cfg := cfgOf verbose
  let up := upgradePhase E cfg PACKAGE_MANAGERS
  match up.1 with
  | Except.error e => (Except.error e, up.2)
  | Except.ok _ => (Except.ok (), up.2 ++ postUpgradePhase E cfg PACKAGE_MANAGERS)

/-- Modelled from the spec: the process exit code of one run.  The
console-script entry point that wraps `main` is not part of the two source
modules; per the spec's CLI contract ("0 = all managers upgraded
successfully; 1 = at least one manager's upgrade failed") and standard
Python semantics, `main` returning `None` exits 0 and an uncaught exception
terminates the interpreter with exit code 1. -/
def exitCode (E : Env) (verbose : Bool) : Nat :=
  match (mainRun E verbose).1 with
  | Except.ok _ => 0
  | Except.error _ => 1

/-! ## Trace observables -/

/-- Is this event the driver's call into a manager's `upgrade`? -/
def Event.isCallUpgrade : Event → Bool
  | .callUpgrade _ => true
  | _ => false

/-- Is this event the driver's call into a manager's `post_upgrade`? -/
def Event.isCallPostUpgrade : Event → Bool
  | .callPostUpgrade _ => true
  | _ => false

/-- Is this event a subprocess invocation? -/
def Event.isExec : Event → Bool
  | .execp _ _ => true
  | _ => false

/-- Is this event an emitted error-level log line? -/
def Event.isErrorLog : Event → Bool
  | .log Level.ERROR _ => true
  | _ => false

/-- Events a call to `_exec` (or a manager's `upgrade` body) can produce:
debug log lines, subprocess invocations, and stderr prints. -/
def execEvent : Event → Bool
  | .log Level.DEBUG _ => true
  | .execp _ _ => true
  | .print _ => true
  | _ => false

/-! ## Helper lemmas about traces -/

theorem logEmit_cases (cfg lvl : Level) (m : Message) :
    logEmit cfg lvl m = [] ∨
      logEmit cfg lvl m = [Event.log lvl (evalMessage m)] := by
  unfold logEmit
  cases h : _print cfg lvl m <;> simp

theorem exec_trace (E : Env) (cfg : Level) (cmd : List String)
    (us cs : Bool) (vrc : Option (List Int))
    (eo : Option (List (String × String))) :
    (_exec E cfg cmd us cs vrc eo).2 =
      logEmit cfg Level.DEBUG
        (Message.builder (fun _ => "executing: " ++ shlexJoin (sudoWrap us cmd))) ++
      [Event.execp (sudoWrap us cmd) (E.run (sudoWrap us cmd) eo).1] := rfl

theorem exec_events (E : Env) (cfg : Level) (cmd : List String)
    (us cs : Bool) (vrc : Option (List Int))
    (eo : Option (List (String × String))) :
    ∀ e ∈ (_exec E cfg cmd us cs vrc eo).2, execEvent e := by
  intro e he
  rw [exec_trace] at he
  rcases List.mem_append.mp he with h | h
  · rcases logEmit_cases cfg Level.DEBUG
      (Message.builder (fun _ => "executing: " ++ shlexJoin (sudoWrap us cmd)))
      with hc | hc <;> rw [hc] at h <;> simp_all [execEvent]
  · simp_all [execEvent]

theorem execEvent_not_call {e : Event} (h : execEvent e = true) :
    e.isCallUpgrade = false ∧ e.isCallPostUpgrade = false ∧
      e.isErrorLog = false := by
  cases e with
  | log lvl msg =>
      cases lvl <;> simp_all [execEvent, Event.isCallUpgrade,
        Event.isCallPostUpgrade, Event.isErrorLog]
  | _ => simp_all [execEvent, Event.isCallUpgrade, Event.isCallPostUpgrade,
      Event.isErrorLog]

theorem npmInstallLoop_events (E : Env) (cfg : Level) :
    ∀ l, ∀ e ∈ (npmInstallLoop E cfg l).2, execEvent e := by
  intro l
  induction l with
  | nil => intro e he; simp [npmInstallLoop] at he
  | cons hd tl ih =>
      obtain ⟨package, versions⟩ := hd
      intro e he
      simp only [npmInstallLoop] at he
      split at he
      · split at he
        · simp at he
        · split at he
          · simp at he
          · split at he
            · simp only [List.mem_cons] at he
              rcases he with rfl | he
              · rfl
              · exact exec_events E cfg _ true false none none e he
            · simp only [List.mem_cons, List.mem_append] at he
              rcases he with (rfl | he) | he
              · rfl
              · exact exec_events E cfg _ true false none none e he
              · exact ih e he
      · simp at he

theorem upgrade_events (pm : PM) (E : Env) (cfg : Level) :
    ∀ e ∈ (pm.upgrade E cfg).2, execEvent e := by
  cases pm with
  | APT => exact exec_events E cfg _ true false none none
  | Snap => exact exec_events E cfg _ true false none none
  | Pipx => exact exec_events E cfg _ false false none _
  | NPM =>
      intro e he
      simp only [PM.upgrade, npmUpgrade] at he
      split at he
      · exact exec_events E cfg _ false true (some [1]) none e he
      · split at he
        · exact exec_events E cfg _ false true (some [1]) none e he
        · split at he
          · split at he
            · simp only [List.mem_append, List.mem_singleton] at he
              rcases he with he | rfl
              · exact exec_events E cfg _ false true (some [1]) none e he
              · rfl
            · simp only [List.mem_append] at he
              rcases he with he | he
              · exact exec_events E cfg _ false true (some [1]) none e he
              · exact npmInstallLoop_events E cfg _ e he
          · exact exec_events E cfg _ false true (some [1]) none e he

theorem logEmit_filter (cfg lvl : Level) (m : Message) (p : Event → Bool)
    (hp : p (Event.log lvl (evalMessage m)) = false) :
    (logEmit cfg lvl m).filter p = [] := by
  rcases logEmit_cases cfg lvl m with hc | hc <;> rw [hc] <;> simp [hp]

theorem upgradeTrace_filter_callUpgrade (pm : PM) (E : Env) (cfg : Level) :
    (pm.upgrade E cfg).2.filter Event.isCallUpgrade = [] :=
  List.filter_eq_nil_iff.mpr fun e he => by
    rw [(execEvent_not_call (upgrade_events pm E cfg e he)).1]; simp

theorem upgradeTrace_filter_callPost (pm : PM) (E : Env) (cfg : Level) :
    (pm.upgrade E cfg).2.filter Event.isCallPostUpgrade = [] :=
  List.filter_eq_nil_iff.mpr fun e he => by
    rw [(execEvent_not_call (upgrade_events pm E cfg e he)).2.1]; simp

theorem upgradeTrace_filter_errorLog (pm : PM) (E : Env) (cfg : Level) :
    (pm.upgrade E cfg).2.filter Event.isErrorLog = [] :=
  List.filter_eq_nil_iff.mpr fun e he => by
    rw [(execEvent_not_call (upgrade_events pm E cfg e he)).2.2]; simp

theorem upgradePhase_cons_ok (E : Env) (cfg : Level) (pm : PM) (rest : List PM)
    (hpm : (pm.upgrade E cfg).1 = Except.ok ()) :
    upgradePhase E cfg (pm :: rest) =
      ((upgradePhase E cfg rest).1,
        logEmit cfg Level.INFO (Message.lit pm.name) ++
          Event.callUpgrade pm.name :: (pm.upgrade E cfg).2 ++
            (upgradePhase E cfg rest).2) := by
  simp only [upgradePhase]
  split
  · simp_all
  · rfl

theorem upgradePhase_cons_err (E : Env) (cfg : Level) (pm : PM) (rest : List PM)
    (e : PyError) (hpm : (pm.upgrade E cfg).1 = Except.error e) :
    upgradePhase E cfg (pm :: rest) =
      (Except.error e,
        logEmit cfg Level.INFO (Message.lit pm.name) ++
          Event.callUpgrade pm.name :: (pm.upgrade E cfg).2) := by
  simp only [upgradePhase]
  split
  · simp_all
  · simp_all

theorem upgradePhase_ok (E : Env) (cfg : Level) :
    ∀ l : List PM, (∀ pm ∈ l, (pm.upgrade E cfg).1 = Except.ok ()) →
      (upgradePhase E cfg l).1 = Except.ok () ∧
      (upgradePhase E cfg l).2.filter Event.isCallUpgrade =
        l.map (fun pm => Event.callUpgrade pm.name) ∧
      (upgradePhase E cfg l).2.filter Event.isCallPostUpgrade = [] ∧
      (upgradePhase E cfg l).2.filter Event.isErrorLog = [] := by
  intro l
  induction l with
  | nil => intro h; exact ⟨rfl, by simp [upgradePhase], by simp [upgradePhase],
      by simp [upgradePhase]⟩
  | cons pm rest ih =>
      intro h
      have hpm := h pm (List.mem_cons_self pm rest)
      obtain ⟨ih1, ih2, ih3, ih4⟩ :=
        ih (fun q hq => h q (List.mem_cons_of_mem pm hq))
      rw [upgradePhase_cons_ok E cfg pm rest hpm]
      refine ⟨ih1, ?_, ?_, ?_⟩
      · simp only [List.filter_append, List.filter_cons,
          logEmit_filter cfg Level.INFO (Message.lit pm.name)
            Event.isCallUpgrade rfl,
          upgradeTrace_filter_callUpgrade, ih2]
        simp [Event.isCallUpgrade]
      · simp only [List.filter_append, List.filter_cons,
          logEmit_filter cfg Level.INFO (Message.lit pm.name)
            Event.isCallPostUpgrade rfl,
          upgradeTrace_filter_callPost, ih3]
        simp [Event.isCallPostUpgrade]
      · simp only [List.filter_append, List.filter_cons,
          logEmit_filter cfg Level.INFO (Message.lit pm.name)
            Event.isErrorLog rfl,
          upgradeTrace_filter_errorLog, ih4]
        simp [Event.isErrorLog]

theorem upgradePhase_fail (E : Env) (cfg : Level) :
    ∀ l1 : List PM, ∀ pm : PM, ∀ l2 : List PM, ∀ e : PyError,
      (∀ q ∈ l1, (q.upgrade E cfg).1 = Except.ok ()) →
      (pm.upgrade E cfg).1 = Except.error e →
      (upgradePhase E cfg (l1 ++ pm :: l2)).1 = Except.error e ∧
      (upgradePhase E cfg (l1 ++ pm :: l2)).2.filter Event.isCallUpgrade =
        (l1 ++ [pm]).map (fun q => Event.callUpgrade q.name) ∧
      (upgradePhase E cfg (l1 ++ pm :: l2)).2.filter Event.isCallPostUpgrade = [] ∧
      (upgradePhase E cfg (l1 ++ pm :: l2)).2.filter Event.isErrorLog = [] := by
  intro l1
  induction l1 with
  | nil =>
      intro pm l2 e _ hpm
      rw [List.nil_append, upgradePhase_cons_err E cfg pm l2 e hpm]
      refine ⟨rfl, ?_, ?_, ?_⟩
      · simp only [List.filter_append, List.filter_cons,
          logEmit_filter cfg Level.INFO (Message.lit pm.name)
            Event.isCallUpgrade rfl,
          upgradeTrace_filter_callUpgrade]
        simp [Event.isCallUpgrade]
      · simp only [List.filter_append, List.filter_cons,
          logEmit_filter cfg Level.INFO (Message.lit pm.name)
            Event.isCallPostUpgrade rfl,
          upgradeTrace_filter_callPost]
        simp [Event.isCallPostUpgrade]
      · simp only [List.filter_append, List.filter_cons,
          logEmit_filter cfg Level.INFO (Message.lit pm.name)
            Event.isErrorLog rfl,
          upgradeTrace_filter_errorLog]
        simp [Event.isErrorLog]
  | cons q rest ih =>
      intro pm l2 e h1 hpm
      have hq := h1 q (List.mem_cons_self q rest)
      obtain ⟨ih1, ih2, ih3, ih4⟩ :=
        ih pm l2 e (fun x hx => h1 x (List.mem_cons_of_mem q hx)) hpm
      rw [List.cons_append, upgradePhase_cons_ok E cfg q (rest ++ pm :: l2) hq]
      refine ⟨ih1, ?_, ?_, ?_⟩
      · simp only [List.filter_append, List.filter_cons,
          logEmit_filter cfg Level.INFO (Message.lit q.name)
            Event.isCallUpgrade rfl,
          upgradeTrace_filter_callUpgrade, ih2]
        simp [Event.isCallUpgrade]
      · simp only [List.filter_append, List.filter_cons,
          logEmit_filter cfg Level.INFO (Message.lit q.name)
            Event.isCallPostUpgrade rfl,
          upgradeTrace_filter_callPost, ih3]
        simp [Event.isCallPostUpgrade]
      · simp only [List.filter_append, List.filter_cons,
          logEmit_filter cfg Level.INFO (Message.lit q.name)
            Event.isErrorLog rfl,
          upgradeTrace_filter_errorLog, ih4]
        simp [Event.isErrorLog]

theorem postTrace_events (pm : PM) (E : Env) (cfg : Level) :
    ∀ e ∈ pm.post_upgrade E cfg, ∃ s, e = Event.log Level.WARNING s := by
  cases pm with
  | APT =>
      intro e he
      simp only [PM.post_upgrade, aptPostUpgrade] at he
      by_cases hr : E.rebootRequiredFile
      · rw [if_pos hr] at he
        rcases logEmit_cases cfg Level.WARNING
            (Message.lit "A reboot is required.") with hc | hc <;>
          rw [hc] at he
        · simp at he
        · simp only [List.mem_singleton] at he
          exact ⟨_, he⟩
      · rw [if_neg hr] at he; simp at he
  | Snap => intro e he; simp [PM.post_upgrade] at he
  | NPM => intro e he; simp [PM.post_upgrade] at he
  | Pipx => intro e he; simp [PM.post_upgrade] at he

theorem postTrace_filter (pm : PM) (E : Env) (cfg : Level) (p : Event → Bool)
    (hp : ∀ s, p (Event.log Level.WARNING s) = false) :
    (pm.post_upgrade E cfg).filter p = [] :=
  List.filter_eq_nil_iff.mpr fun e he => by
    obtain ⟨s, rfl⟩ := postTrace_events pm E cfg e he
    rw [hp s]; simp

theorem postUpgradePhase_filters (E : Env) (cfg : Level) :
    ∀ l : List PM,
      (postUpgradePhase E cfg l).filter Event.isCallPostUpgrade =
        l.map (fun pm => Event.callPostUpgrade pm.name) ∧
      (postUpgradePhase E cfg l).filter Event.isCallUpgrade = [] ∧
      (postUpgradePhase E cfg l).filter Event.isErrorLog = [] := by
  intro l
  induction l with
  | nil => exact ⟨rfl, rfl, rfl⟩
  | cons pm rest ih =>
      obtain ⟨ih1, ih2, ih3⟩ := ih
      refine ⟨?_, ?_, ?_⟩
      · simp only [postUpgradePhase, List.filter_append, List.filter_cons,
          postTrace_filter pm E cfg Event.isCallPostUpgrade (fun s => rfl), ih1]
        simp [Event.isCallPostUpgrade]
      · simp only [postUpgradePhase, List.filter_append, List.filter_cons,
          postTrace_filter pm E cfg Event.isCallUpgrade (fun s => rfl), ih2]
        simp [Event.isCallUpgrade]
      · simp only [postUpgradePhase, List.filter_append, List.filter_cons,
          postTrace_filter pm E cfg Event.isErrorLog (fun s => rfl), ih3]
        simp [Event.isErrorLog]

theorem mainRun_ok (E : Env) (verbose : Bool)
    (h : ∀ pm ∈ PACKAGE_MANAGERS, (pm.upgrade E (cfgOf verbose)).1 = Except.ok ()) :
    mainRun E verbose =
      (Except.ok (),
        (upgradePhase E (cfgOf verbose) PACKAGE_MANAGERS).2 ++
          postUpgradePhase E (cfgOf verbose) PACKAGE_MANAGERS) := by
  have h1 := (upgradePhase_ok E (cfgOf verbose) PACKAGE_MANAGERS h).1
  simp only [mainRun]
  split <;> simp_all

theorem mainRun_fail (E : Env) (verbose : Bool) (e : PyError)
    (hfail : (upgradePhase E (cfgOf verbose) PACKAGE_MANAGERS).1 = Except.error e) :
    mainRun E verbose =
      (Except.error e, (upgradePhase E (cfgOf verbose) PACKAGE_MANAGERS).2) := by
  simp only [mainRun]
  split <;> simp_all

/-! ## Concrete worlds used to instantiate the theorems -/

/-- A world where every command exits 0 with stdout an empty JSON object
and the reboot marker is absent: every manager's upgrade succeeds. -/
def envAllOk : Env := ⟨fun _ _ => (0, "\x7b\x7d"), false⟩

/-- Like `envAllOk` but with the reboot-marker file present. -/
def envAllOkReboot : Env := ⟨fun _ _ => (0, "\x7b\x7d"), true⟩

/-- A world where every command exits 1: the very first manager's upgrade
(APT, which accepts no non-zero codes) raises `CalledProcessError`. -/
def envAllFail : Env := ⟨fun _ _ => (1, "\x7b\x7d"), false⟩

/-! ## Claim theorems -/

/-- Claim C1: over the fixed manager list, if a manager's upgrade fails
(all managers before it having succeeded), the run's exit code is non-zero,
no `post_upgrade` is ever invoked, and the invoked upgrades are exactly the
managers up to and including the failing one — none after it. -/
theorem C1_abort_on_first_failure (E : Env) (verbose : Bool)
    (l1 : List PM) (pm : PM) (l2 : List PM) (e : PyError)
    (hsplit : PACKAGE_MANAGERS = l1 ++ pm :: l2)
    (hbefore : ∀ q ∈ l1, (q.upgrade E (cfgOf verbose)).1 = Except.ok ())
    (hfail : (pm.upgrade E (cfgOf verbose)).1 = Except.error e) :
    exitCode E verbose ≠ 0 ∧
    (mainRun E verbose).2.filter Event.isCallPostUpgrade = [] ∧
    (mainRun E verbose).2.filter Event.isCallUpgrade =
      (l1 ++ [pm]).map (fun q => Event.callUpgrade q.name) := by
  obtain ⟨h1, h2, h3, h4⟩ :=
    upgradePhase_fail E (cfgOf verbose) l1 pm l2 e hbefore hfail
  rw [← hsplit] at h1 h2 h3
  have hm := mainRun_fail E verbose e h1
  refine ⟨?_, ?_, ?_⟩
  · simp [exitCode, hm]
  · rw [hm]; exact h3
  · rw [hm]; exact h2

/-- Witness for C1: in the world where every command exits 1, APT (the
first manager) fails; exit code is non-zero, no post-upgrade call occurs,
and APT's is the only upgrade call. -/
theorem C1_witness :
    exitCode envAllFail false ≠ 0 ∧
    (mainRun envAllFail false).2.filter Event.isCallPostUpgrade = [] ∧
    (mainRun envAllFail false).2.filter Event.isCallUpgrade =
      (([] : List PM) ++ [PM.APT]).map (fun q => Event.callUpgrade q.name) :=
  C1_abort_on_first_failure envAllFail false [] PM.APT
    [PM.Snap, PM.NPM, PM.Pipx] (PyError.calledProcessError 1)
    rfl (by simp) rfl

/-- Claim C2: when every manager's upgrade succeeds, the exit code is 0 and
the trace splits into an upgrade part and a later post-upgrade part: all
upgrade calls (one per manager, in list order) precede all post-upgrade
calls (one per manager, in the same order). -/
theorem C2_all_success (E : Env) (verbose : Bool)
    (hall : ∀ pm ∈ PACKAGE_MANAGERS,
      (pm.upgrade E (cfgOf verbose)).1 = Except.ok ()) :
    exitCode E verbose = 0 ∧
    ∃ t1 t2, (mainRun E verbose).2 = t1 ++ t2 ∧
      t1.filter Event.isCallUpgrade =
        PACKAGE_MANAGERS.map (fun pm => Event.callUpgrade pm.name) ∧
      t1.filter Event.isCallPostUpgrade = [] ∧
      t2.filter Event.isCallUpgrade = [] ∧
      t2.filter Event.isCallPostUpgrade =
        PACKAGE_MANAGERS.map (fun pm => Event.callPostUpgrade pm.name) := by
  have hm := mainRun_ok E verbose hall
  obtain ⟨h1, h2, h3, h4⟩ := upgradePhase_ok E (cfgOf verbose) PACKAGE_MANAGERS hall
  obtain ⟨p1, p2, p3⟩ := postUpgradePhase_filters E (cfgOf verbose) PACKAGE_MANAGERS
  exact ⟨by simp [exitCode, hm],
    (upgradePhase E (cfgOf verbose) PACKAGE_MANAGERS).2,
    postUpgradePhase E (cfgOf verbose) PACKAGE_MANAGERS,
    by rw [hm], h2, h3, p2, p1⟩

/-- Witness for C2: in the world where every command exits 0 (npm reporting
an empty outdated map), all four upgrades succeed. -/
theorem C2_witness :
    exitCode envAllOk false = 0 ∧
    ∃ t1 t2, (mainRun envAllOk false).2 = t1 ++ t2 ∧
      t1.filter Event.isCallUpgrade =
        PACKAGE_MANAGERS.map (fun pm => Event.callUpgrade pm.name) ∧
      t1.filter Event.isCallPostUpgrade = [] ∧
      t2.filter Event.isCallUpgrade = [] ∧
      t2.filter Event.isCallPostUpgrade =
        PACKAGE_MANAGERS.map (fun pm => Event.callPostUpgrade pm.name) :=
  C2_all_success envAllOk false (by intro pm hpm; fin_cases hpm <;> rfl)

/-- Counterexample to claim C3 as stated: in the world where every command
exits 1, APT's upgrade fails and the run exits non-zero, yet the trace
contains no error-level log line at all (the failure surfaces as an
uncaught `CalledProcessError`, not via `logger.error`). -/
theorem C3_counterexample :
    (PM.APT.upgrade envAllFail (cfgOf false)).1 =
      Except.error (PyError.calledProcessError 1) ∧
    exitCode envAllFail false = 1 ∧
    (mainRun envAllFail false).2.filter Event.isErrorLog = [] :=
  ⟨rfl, rfl, rfl⟩

/-- Claim C3 (amended): whenever a manager's upgrade fails (all managers
before it having succeeded), the run terminates with a non-zero exit code,
but no error-level log message is emitted — the failure propagates as an
uncaught exception instead of being logged. -/
theorem C3_fail_exits_nonzero_without_error_log (E : Env) (verbose : Bool)
    (l1 : List PM) (pm : PM) (l2 : List PM) (e : PyError)
    (hsplit : PACKAGE_MANAGERS = l1 ++ pm :: l2)
    (hbefore : ∀ q ∈ l1, (q.upgrade E (cfgOf verbose)).1 = Except.ok ())
    (hfail : (pm.upgrade E (cfgOf verbose)).1 = Except.error e) :
    exitCode E verbose ≠ 0 ∧
    (mainRun E verbose).2.filter Event.isErrorLog = [] := by
  obtain ⟨h1, h2, h3, h4⟩ :=
    upgradePhase_fail E (cfgOf verbose) l1 pm l2 e hbefore hfail
  rw [← hsplit] at h1 h4
  have hm := mainRun_fail E verbose e h1
  refine ⟨by simp [exitCode, hm], ?_⟩
  rw [hm]
  exact h4

/-- Witness for the amended C3, at the same world as the counterexample. -/
theorem C3_witness :
    exitCode envAllFail false ≠ 0 ∧
    (mainRun envAllFail false).2.filter Event.isErrorLog = [] :=
  C3_fail_exits_nonzero_without_error_log envAllFail false [] PM.APT
    [PM.Snap, PM.NPM, PM.Pipx] (PyError.calledProcessError 1)
    rfl (by simp) rfl

/-- Claim C8: when every manager's upgrade succeeds, the run exits 0
whatever the reboot marker says; if the marker file exists, the
warning-level line "A reboot is required." is in the trace; if not, APT's
`post_upgrade` does nothing.  `post_upgrade` can never fail the run. -/
theorem C8_reboot_warning (E : Env) (verbose : Bool)
    (hall : ∀ pm ∈ PACKAGE_MANAGERS,
      (pm.upgrade E (cfgOf verbose)).1 = Except.ok ()) :
    exitCode E verbose = 0 ∧
    (E.rebootRequiredFile = true →
      Event.log Level.WARNING "A reboot is required." ∈ (mainRun E verbose).2) ∧
    (E.rebootRequiredFile = false → aptPostUpgrade E (cfgOf verbose) = []) := by
  have hm := mainRun_ok E verbose hall
  have hlog : logEmit (cfgOf verbose) Level.WARNING
      (Message.lit "A reboot is required.") =
      [Event.log Level.WARNING "A reboot is required."] := by
    cases verbose <;> rfl
  refine ⟨by simp [exitCode, hm], ?_, ?_⟩
  · intro hr
    rw [hm]
    refine List.mem_append_right _ ?_
    simp [PACKAGE_MANAGERS, postUpgradePhase, PM.post_upgrade,
      aptPostUpgrade, hr, hlog]
  · intro hr
    simp [aptPostUpgrade, hr]

/-- Witness for C8: all commands exit 0 and the reboot marker exists. -/
theorem C8_witness :
    exitCode envAllOkReboot false = 0 ∧
    (envAllOkReboot.rebootRequiredFile = true →
      Event.log Level.WARNING "A reboot is required." ∈
        (mainRun envAllOkReboot false).2) ∧
    (envAllOkReboot.rebootRequiredFile = false →
      aptPostUpgrade envAllOkReboot (cfgOf false) = []) :=
  C8_reboot_warning envAllOkReboot false (by intro pm hpm; fin_cases hpm <;> rfl)

/-- A world where every command exits 2. -/
def envExit2 : Env := ⟨fun _ _ => (2, ""), false⟩

/-- Claim C4: `_exec` reports exit code 0 as success whatever the
acceptable set is; a code in the caller's acceptable set as success; and
any other non-zero code as a `CalledProcessError` failure. -/
theorem C4_exit_code_interpretation :
    (∀ (E : Env) (cfg : Level) (cmd : List String) (us cs : Bool)
        (vrc : Option (List Int)) (eo : Option (List (String × String))),
      (E.run (sudoWrap us cmd) eo).1 = 0 →
        (_exec E cfg cmd us cs vrc eo).1 =
          Except.ok (if cs then (E.run (sudoWrap us cmd) eo).2 else "")) ∧
    (∀ (E : Env) (cfg : Level) (cmd : List String) (us cs : Bool)
        (vs : List Int) (eo : Option (List (String × String))),
      (E.run (sudoWrap us cmd) eo).1 ∈ vs →
        (_exec E cfg cmd us cs (some vs) eo).1 =
          Except.ok (if cs then (E.run (sudoWrap us cmd) eo).2 else "")) ∧
    (∀ (E : Env) (cfg : Level) (cmd : List String) (us cs : Bool)
        (vs : List Int) (eo : Option (List (String × String))),
      (E.run (sudoWrap us cmd) eo).1 ∉ vs →
      (E.run (sudoWrap us cmd) eo).1 ≠ 0 →
        (_exec E cfg cmd us cs (some vs) eo).1 =
          Except.error
            (PyError.calledProcessError ((E.run (sudoWrap us cmd) eo).1))) := by
  refine ⟨?_, ?_, ?_⟩
  · intro E cfg cmd us cs vrc eo h
    simp [_exec, h]
  · intro E cfg cmd us cs vs eo h
    simp only [_exec]
    simp [List.elem_eq_true_of_mem h]
    intro hx
    exact absurd h hx
  · intro E cfg cmd us cs vs eo h1 h2
    have hc : vs.contains ((E.run (sudoWrap us cmd) eo).1) = false := by
      simpa using h1
    simp [_exec, hc, h2]
    exact h1

/-- Witness for C4 at acceptable set `{1}`: exit 0 is success (though 0 is
not in the set), exit 1 is success, exit 2 is a failure. -/
theorem C4_witness :
    (_exec envAllOk Level.INFO ["/usr/bin/true"] false false (some [1]) none).1 =
      Except.ok "" ∧
    (_exec envAllFail Level.INFO ["/usr/bin/true"] false false (some [1]) none).1 =
      Except.ok "" ∧
    (_exec envExit2 Level.INFO ["/usr/bin/true"] false false (some [1]) none).1 =
      Except.error (PyError.calledProcessError 2) :=
  ⟨C4_exit_code_interpretation.1 envAllOk Level.INFO ["/usr/bin/true"]
      false false (some [1]) none rfl,
    C4_exit_code_interpretation.2.1 envAllFail Level.INFO ["/usr/bin/true"]
      false false [1] none (by decide),
    C4_exit_code_interpretation.2.2 envExit2 Level.INFO ["/usr/bin/true"]
      false false [1] none (by decide) (by decide)⟩

/-- Claim C7: with elevation requested, the executed command line is
exactly the sudo executable, then the separator `"--"`, then the original
command, unmodified and in order. -/
theorem C7_sudo_separator_prefix (E : Env) (cfg : Level) (cmd : List String)
    (cs : Bool) (vrc : Option (List Int))
    (eo : Option (List (String × String))) :
    (_exec E cfg cmd true cs vrc eo).2.filter Event.isExec =
      [Event.execp (SUDO_EXE :: "--" :: cmd)
        ((E.run (SUDO_EXE :: "--" :: cmd) eo).1)] := by
  rw [exec_trace]
  simp only [List.filter_append,
    logEmit_filter cfg Level.DEBUG _ Event.isExec rfl]
  simp [sudoWrap, Event.isExec]

/-- Claim C9: `_exec` logs the fully shell-quoted command at debug level
(the line is in the trace whenever the configured level is DEBUG), and the
lazy message builder is never evaluated when the configured level is above
the message's: the gated `_print` result is `none` and is independent of
the builder function. -/
theorem C9_debug_line_and_laziness :
    (∀ (E : Env) (cmd : List String) (us cs : Bool) (vrc : Option (List Int))
        (eo : Option (List (String × String))),
      Event.log Level.DEBUG ("executing: " ++ shlexJoin (sudoWrap us cmd)) ∈
        (_exec E Level.DEBUG cmd us cs vrc eo).2) ∧
    (∀ (cfg lvl : Level) (f g : Unit → String), lvl.value < cfg.value →
      _print cfg lvl (Message.builder f) = none ∧
      _print cfg lvl (Message.builder f) = _print cfg lvl (Message.builder g)) := by
  constructor
  · intro E cmd us cs vrc eo
    rw [exec_trace]
    refine List.mem_append_left _ ?_
    have h : logEmit Level.DEBUG Level.DEBUG
        (Message.builder (fun _ => "executing: " ++ shlexJoin (sudoWrap us cmd))) =
        [Event.log Level.DEBUG ("executing: " ++ shlexJoin (sudoWrap us cmd))] := rfl
    rw [h]
    exact List.mem_singleton_self _
  · intro cfg lvl f g h
    constructor <;> simp [_print, h]

/-- Witness for C9: the debug line for an elevated snap refresh is traced
when the level is DEBUG, and at the default INFO level a builder-backed
debug message is dropped without being evaluated (the result does not
depend on the builder). -/
theorem C9_witness :
    Event.log Level.DEBUG
      ("executing: " ++ shlexJoin (sudoWrap true [SNAP_EXE, "refresh"])) ∈
      (_exec envAllOk Level.DEBUG [SNAP_EXE, "refresh"] true false none none).2 ∧
    Level.DEBUG.value < Level.INFO.value ∧
    _print Level.INFO Level.DEBUG (Message.builder (fun _ => "costly")) = none ∧
    _print Level.INFO Level.DEBUG (Message.builder (fun _ => "costly")) =
      _print Level.INFO Level.DEBUG (Message.builder (fun _ => "different")) :=
  ⟨C9_debug_line_and_laziness.1 envAllOk [SNAP_EXE, "refresh"] true false none none,
    by decide,
    (C9_debug_line_and_laziness.2 Level.INFO Level.DEBUG
      (fun _ => "costly") (fun _ => "different") (by decide)).1,
    (C9_debug_line_and_laziness.2 Level.INFO Level.DEBUG
      (fun _ => "costly") (fun _ => "different") (by decide)).2⟩

/-- The shape shared by rendered warning and error lines: a color code,
then the program tag, the level tag "error: ", the color reset, the
message, the (empty) trailing part, and a newline. -/
def warnErrLine (color s : String) : String :=
  color ++ "(upper) " ++ "error: " ++ "\x1b[0m" ++ s ++ "" ++ "\n"

/-- Claim C10: the logger renders warning-level messages with the same
textual level tag "error: " as error-level messages; their rendered lines
agree except for the leading color code (1;33 yellow vs 1;31 red). -/
theorem C10_warning_renders_error_tag (s : String) :
    (levelInfos Level.WARNING).name = "error: " ∧
    (levelInfos Level.ERROR).name = "error: " ∧
    (levelInfos Level.WARNING).name = (levelInfos Level.ERROR).name ∧
    render Level.WARNING s = warnErrLine "\x1b[1;33m" s ∧
    render Level.ERROR s = warnErrLine "\x1b[1;31m" s :=
  ⟨rfl, rfl, rfl, rfl, rfl⟩

/-! ## NPM structured-output claims -/

/-- The parsed outdated map `{"foo": {"current": "1.0", "latest": "2.0"}}`. -/
def fooOutdated : List (String × Json) :=
  [("foo", Json.obj [("current", Json.str "1.0"), ("latest", Json.str "2.0")])]

theorem npmOutdated_ok (E : Env) (cfg : Level) (c : Int) (out : String)
    (hrun : E.run npmOutdatedCmd none = (c, out)) (hc : c = 0 ∨ c = 1) :
    (_exec E cfg npmOutdatedCmd false true (some [1]) none).1 = Except.ok out := by
  have h1 : E.run (sudoWrap false npmOutdatedCmd) none = (c, out) := by
    simpa [sudoWrap] using hrun
  rcases hc with rfl | rfl <;> simp [_exec, h1]

theorem npmOutdated_trace_filter (E : Env) (cfg : Level) (c : Int) (out : String)
    (hrun : E.run npmOutdatedCmd none = (c, out)) :
    (_exec E cfg npmOutdatedCmd false true (some [1]) none).2.filter Event.isExec =
      [Event.execp npmOutdatedCmd c] := by
  rw [exec_trace]
  simp [List.filter_append, logEmit_filter cfg Level.DEBUG _ Event.isExec rfl,
    sudoWrap, Event.isExec, hrun]

theorem fooLoop_trace_filter (E : Env) (cfg : Level) :
    (npmInstallLoop E cfg fooOutdated).2.filter Event.isExec =
      [Event.execp (sudoWrap true (npmInstallCmd "foo" (Json.str "2.0")))
        ((E.run (sudoWrap true (npmInstallCmd "foo" (Json.str "2.0"))) none).1)] := by
  cases hI : (_exec E cfg (npmInstallCmd "foo" (Json.str "2.0"))
      true false none none).1 with
  | error e =>
      simp [npmInstallLoop, fooOutdated, dictGet, hI]
      rw [exec_trace]
      simp [List.filter_append, List.filter_cons,
        logEmit_filter cfg Level.DEBUG _ Event.isExec rfl, Event.isExec]
  | ok s =>
      simp [npmInstallLoop, fooOutdated, dictGet, hI]
      rw [exec_trace]
      simp [List.filter_append, List.filter_cons,
        logEmit_filter cfg Level.DEBUG _ Event.isExec rfl, Event.isExec]

/-- Claim C5: with captured stdout parsing to the one-entry map
`fooOutdated`, `NPM.upgrade` performs exactly one follow-up install whose
command line names "foo@2.0"; with stdout parsing to the empty object it
performs no follow-up install, prints the up-to-date message, and
succeeds. -/
theorem C5_npm_outdated_behaviour :
    (∀ (E : Env) (cfg : Level) (c : Int) (out : String),
      E.run npmOutdatedCmd none = (c, out) → (c = 0 ∨ c = 1) →
      _parse_json out = Except.ok (Json.obj fooOutdated) →
      "foo@2.0" ∈ npmInstallCmd "foo" (Json.str "2.0") ∧
      (npmUpgrade E cfg).2.filter Event.isExec =
        [Event.execp npmOutdatedCmd c,
         Event.execp (sudoWrap true (npmInstallCmd "foo" (Json.str "2.0")))
           ((E.run (sudoWrap true (npmInstallCmd "foo" (Json.str "2.0"))) none).1)]) ∧
    (∀ (E : Env) (cfg : Level) (c : Int) (out : String),
      E.run npmOutdatedCmd none = (c, out) → (c = 0 ∨ c = 1) →
      _parse_json out = Except.ok (Json.obj []) →
      (npmUpgrade E cfg).1 = Except.ok () ∧
      Event.print "All packages are up-to-date." ∈ (npmUpgrade E cfg).2 ∧
      (npmUpgrade E cfg).2.filter Event.isExec = [Event.execp npmOutdatedCmd c]) := by
  constructor
  · intro E cfg c out hrun hc hparse
    have hr1 := npmOutdated_ok E cfg c out hrun hc
    refine ⟨by decide, ?_⟩
    have htr : (npmUpgrade E cfg).2 =
        (_exec E cfg npmOutdatedCmd false true (some [1]) none).2 ++
          (npmInstallLoop E cfg fooOutdated).2 := by
      simp [npmUpgrade, hr1, hparse, fooOutdated]
    rw [htr, List.filter_append, npmOutdated_trace_filter E cfg c out hrun,
      fooLoop_trace_filter E cfg]
    rfl
  · intro E cfg c out hrun hc hparse
    have hr1 := npmOutdated_ok E cfg c out hrun hc
    have heq : npmUpgrade E cfg =
        (Except.ok (),
          (_exec E cfg npmOutdatedCmd false true (some [1]) none).2 ++
            [Event.print "All packages are up-to-date."]) := by
      simp [npmUpgrade, hr1, hparse]
    refine ⟨by rw [heq], ?_, ?_⟩
    · rw [heq]
      exact List.mem_append_right _ (List.mem_singleton_self _)
    · rw [heq]
      simp only [List.filter_append, npmOutdated_trace_filter E cfg c out hrun]
      simp [Event.isExec]

/-- A world where the npm outdated query exits 1 with the one-entry
outdated map on stdout and every other command exits 0. -/
def envNpmFoo : Env :=
  ⟨fun cmd _ =>
    if cmd = npmOutdatedCmd
    then (1, "\x7b\"foo\":\x7b\"current\":\"1.0\",\"latest\":\"2.0\"\x7d\x7d")
    else (0, ""), false⟩

/-- Witness for C5: one install invocation naming foo@2.0 in the
one-entry world; no install, the up-to-date print, and success in the
empty-map world. -/
theorem C5_witness :
    ("foo@2.0" ∈ npmInstallCmd "foo" (Json.str "2.0") ∧
      (npmUpgrade envNpmFoo Level.INFO).2.filter Event.isExec =
        [Event.execp npmOutdatedCmd 1,
         Event.execp (sudoWrap true (npmInstallCmd "foo" (Json.str "2.0")))
           ((envNpmFoo.run (sudoWrap true (npmInstallCmd "foo" (Json.str "2.0")))
             none).1)]) ∧
    ((npmUpgrade envAllOk Level.INFO).1 = Except.ok () ∧
      Event.print "All packages are up-to-date." ∈
        (npmUpgrade envAllOk Level.INFO).2 ∧
      (npmUpgrade envAllOk Level.INFO).2.filter Event.isExec =
        [Event.execp npmOutdatedCmd 0]) :=
  ⟨C5_npm_outdated_behaviour.1 envNpmFoo Level.INFO 1
      "\x7b\"foo\":\x7b\"current\":\"1.0\",\"latest\":\"2.0\"\x7d\x7d"
      rfl (Or.inr rfl) rfl,
    C5_npm_outdated_behaviour.2 envAllOk Level.INFO 0 "\x7b\x7d"
      rfl (Or.inl rfl) rfl⟩

/-- Claim C6: when the captured stdout parses as JSON but is not an object
— or an entry's value is not an object — `NPM.upgrade` raises `TypeError`;
this propagates out of the driver uncaught (abnormal termination), and it
is a distinct condition from the `CalledProcessError` of an ordinary
manager failure. -/
theorem C6_npm_shape_type_error :
    (∀ (E : Env) (cfg : Level) (c : Int) (out : String) (j : Json),
      E.run npmOutdatedCmd none = (c, out) → (c = 0 ∨ c = 1) →
      _parse_json out = Except.ok j → (∀ kvs, j ≠ Json.obj kvs) →
      (npmUpgrade E cfg).1 = Except.error PyError.typeError) ∧
    (∀ (E : Env) (cfg : Level) (c : Int) (out : String) (k : String) (v : Json)
        (rest : List (String × Json)),
      E.run npmOutdatedCmd none = (c, out) → (c = 0 ∨ c = 1) →
      _parse_json out = Except.ok (Json.obj ((k, v) :: rest)) →
      (∀ kvs, v ≠ Json.obj kvs) →
      (npmUpgrade E cfg).1 = Except.error PyError.typeError) ∧
    (∀ (E : Env) (verbose : Bool) (c : Int) (out : String) (j : Json),
      (PM.APT.upgrade E (cfgOf verbose)).1 = Except.ok () →
      (PM.Snap.upgrade E (cfgOf verbose)).1 = Except.ok () →
      E.run npmOutdatedCmd none = (c, out) → (c = 0 ∨ c = 1) →
      _parse_json out = Except.ok j → (∀ kvs, j ≠ Json.obj kvs) →
      (mainRun E verbose).1 = Except.error PyError.typeError ∧
        exitCode E verbose = 1) ∧
    (∀ c : Int, PyError.typeError ≠ PyError.calledProcessError c) := by
  have part1 : ∀ (E : Env) (cfg : Level) (c : Int) (out : String) (j : Json),
      E.run npmOutdatedCmd none = (c, out) → (c = 0 ∨ c = 1) →
      _parse_json out = Except.ok j → (∀ kvs, j ≠ Json.obj kvs) →
      (npmUpgrade E cfg).1 = Except.error PyError.typeError := by
    intro E cfg c out j hrun hc hparse hnon
    have hr1 := npmOutdated_ok E cfg c out hrun hc
    cases j with
    | obj kvs => exact absurd rfl (hnon kvs)
    | null => simp [npmUpgrade, hr1, hparse]
    | bool b => simp [npmUpgrade, hr1, hparse]
    | num n => simp [npmUpgrade, hr1, hparse]
    | str s => simp [npmUpgrade, hr1, hparse]
    | arr xs => simp [npmUpgrade, hr1, hparse]
  refine ⟨part1, ?_, ?_, ?_⟩
  · intro E cfg c out k v rest hrun hc hparse hnon
    have hr1 := npmOutdated_ok E cfg c out hrun hc
    have hloop : (npmInstallLoop E cfg ((k, v) :: rest)).1 =
        Except.error PyError.typeError := by
      cases v with
      | obj kvs => exact absurd rfl (hnon kvs)
      | null => simp [npmInstallLoop]
      | bool b => simp [npmInstallLoop]
      | num n => simp [npmInstallLoop]
      | str s => simp [npmInstallLoop]
      | arr xs => simp [npmInstallLoop]
    simp [npmUpgrade, hr1, hparse, hloop]
  · intro E verbose c out j hapt hsnap hrun hc hparse hnon
    have hnpm : (PM.NPM.upgrade E (cfgOf verbose)).1 =
        Except.error PyError.typeError :=
      part1 E (cfgOf verbose) c out j hrun hc hparse hnon
    have hsplit : PACKAGE_MANAGERS = [PM.APT, PM.Snap] ++ PM.NPM :: [PM.Pipx] := rfl
    obtain ⟨h1, h2, h3, h4⟩ :=
      upgradePhase_fail E (cfgOf verbose) [PM.APT, PM.Snap] PM.NPM [PM.Pipx]
        PyError.typeError
        (by
          intro q hq
          rcases List.mem_pair.mp hq with rfl | rfl
          · exact hapt
          · exact hsnap)
        hnpm
    rw [← hsplit] at h1
    have hm := mainRun_fail E verbose PyError.typeError h1
    exact ⟨by rw [hm], by simp [exitCode, hm]⟩
  · intro c h
    cases h

/-- A world where the npm outdated query exits 1 with stdout `[1]` (valid
JSON, not an object) and every other command exits 0. -/
def envNpmNonObj : Env :=
  ⟨fun cmd _ =>
    if cmd = npmOutdatedCmd then (1, "[1]") else (0, ""), false⟩

/-- A world where the npm outdated query exits 1 with stdout
`{"foo": 3}` (an object whose entry value is not an object). -/
def envNpmBadEntry : Env :=
  ⟨fun cmd _ =>
    if cmd = npmOutdatedCmd then (1, "\x7b\"foo\": 3\x7d") else (0, ""), false⟩

/-- Witness for C6: a non-object stdout and a non-object entry value both
raise `TypeError`; with the other managers succeeding the whole run dies
with that `TypeError` (exit 1); and `TypeError` is not a
`CalledProcessError`. -/
theorem C6_witness :
    (npmUpgrade envNpmNonObj Level.INFO).1 = Except.error PyError.typeError ∧
    (npmUpgrade envNpmBadEntry Level.INFO).1 = Except.error PyError.typeError ∧
    ((mainRun envNpmNonObj false).1 = Except.error PyError.typeError ∧
      exitCode envNpmNonObj false = 1) ∧
    PyError.typeError ≠ PyError.calledProcessError 5 :=
  ⟨C6_npm_shape_type_error.1 envNpmNonObj Level.INFO 1 "[1]"
      (Json.arr [Json.num 1]) rfl (Or.inr rfl) rfl
      (by intro kvs h; simp at h),
    C6_npm_shape_type_error.2.1 envNpmBadEntry Level.INFO 1
      "\x7b\"foo\": 3\x7d" "foo" (Json.num 3) [] rfl (Or.inr rfl) rfl
      (by intro kvs h; simp at h),
    C6_npm_shape_type_error.2.2.1 envNpmNonObj false 1 "[1]"
      (Json.arr [Json.num 1]) rfl rfl rfl (Or.inr rfl) rfl
      (by intro kvs h; simp at h),
    C6_npm_shape_type_error.2.2.2 5⟩

/-- Witness for C7 at a concrete world and command. -/
theorem C7_witness :
    (_exec envAllOk Level.INFO [APT_GET_EXE, "upgrade"] true false none none).2.filter
        Event.isExec =
      [Event.execp (SUDO_EXE :: "--" :: [APT_GET_EXE, "upgrade"])
        ((envAllOk.run (SUDO_EXE :: "--" :: [APT_GET_EXE, "upgrade"]) none).1)] :=
  C7_sudo_separator_prefix envAllOk Level.INFO [APT_GET_EXE, "upgrade"]
    false none none

/-- Witness for C10 at a concrete message. -/
theorem C10_witness :
    (levelInfos Level.WARNING).name = "error: " ∧
    (levelInfos Level.ERROR).name = "error: " ∧
    (levelInfos Level.WARNING).name = (levelInfos Level.ERROR).name ∧
    render Level.WARNING "A reboot is required." =
      warnErrLine "\x1b[1;33m" "A reboot is required." ∧
    render Level.ERROR "A reboot is required." =
      warnErrLine "\x1b[1;31m" "A reboot is required." :=
  C10_warning_renders_error_tag "A reboot is required."

end Upper
